import Mathlib

/-!
Verification of the quant-wheel repository's Field abstraction
(`src/field/_types.py`, `src/field/abstract.py`, `src/field/basic.py`) and
its accumulating operator engine (`src/operator/abstract.py`), as a shallow
embedding: pandas payloads become inductive data, stateful operator code
becomes explicit state passing, and every fallible Python call returns
`Except PyErr`.
-/

set_option maxHeartbeats 1000000

namespace QuantWheel

/-- Scalar cell values stored in pandas payloads. `nan` models the
not-a-number placeholder (`np.nan`) used as the default buffer fill and as
the padding that `shift` exposes. -/
inductive Val where
  | nan : Val
  | int (z : Int) : Val
deriving Repr, DecidableEq

/-- Payload held in `PandasField.data`: a plain number, a `pd.Series`
(string label index plus values), or a `pd.DataFrame` (column labels, row
index, row-major cells). -/
inductive PdData where
  | num (v : Val)
  | series (index : List String) (values : List Val)
  | frame (columns : List String) (index : List Int) (rows : List (List Val))
deriving Repr, DecidableEq

/-- The dimension tag computed at construction: D0 scalar, D1 vector,
D2 matrix. -/
inductive Dim where
  | d0 | d1 | d2
deriving Repr, DecidableEq

/-- The pandas implementation of Field (`PandasField` in `field/basic.py`):
the stored payload plus the `name` attribute. The `dim`, `tickers`,
`timestamps` and `shape` attributes are derived from the payload below,
mirroring the class's `cached_property` definitions. -/
structure PandasField where
  data : PdData
  name : String
deriving Repr, DecidableEq

/-- The `dim` attribute: set branch-by-branch in `PandasField.__init__`
and always equal to the structural kind of the stored payload. -/
def PandasField.dim (f : PandasField) : Dim :=
  match f.data with
  | .num _ => .d0
  | .series _ _ => .d1
  | .frame _ _ _ => .d2

/-- The `tickers` cached property: the Series index for D1, the DataFrame
columns for D2, None otherwise. -/
def PandasField.tickers (f : PandasField) : Option (List String) :=
  match f.data with
  | .num _ => none
  | .series idx _ => some idx
  | .frame cols _ _ => some cols

/-- The `timestamps` cached property: the DataFrame index for D2, None
otherwise. -/
def PandasField.timestamps (f : PandasField) : Option (List Int) :=
  match f.data with
  | .frame _ idx _ => some idx
  | _ => none

/-- The `shape` cached property (`get_shape` in `field/_types.py`): `()`
for a number, `(n,)` for a Series, `(rows, cols)` for a DataFrame. -/
def PandasField.shape (f : PandasField) : List Nat :=
  match f.data with
  | .num _ => []
  | .series _ vals => [vals.length]
  | .frame cols _ rows => [rows.length, cols.length]

/-- Error kinds raised by the modelled Python code. `otherError` marks
pandas-layer failures on branches no theorem relies on, where only the
fact of failure, not the precise exception class, is modelled. -/
inductive PyErr where
  | typeError (msg : String)
  | valueError (msg : String)
  | keyError
  | indexError
  | attributeError (msg : String)
  | methodImplError (msg : String)
  | otherError (msg : String)
deriving Repr, DecidableEq

/-- Python truthiness of an optional list argument (the code tests labels
with `if tickers:` style checks): `None` and the empty list are falsy, a
nonempty list is truthy. -/
def truthy {α : Type} : Option (List α) → Bool
  | some (_ :: _) => true
  | _ => false

/-- A possible `data` argument to `PandasField.__init__`: a number, a
Series, a DataFrame, or anything else, which the constructor rejects with
TypeError. -/
inductive PyData where
  | num (v : Val)
  | series (index : List String) (values : List Val)
  | frame (columns : List String) (index : List Int) (rows : List (List Val))
  | other (descr : String)
deriving Repr, DecidableEq

/-- The body of `PandasField.__init__`: numbers are broadcast into a
DataFrame when both labels are truthy, into a Series when only tickers
are, and kept scalar otherwise (ignoring timestamps); a Series keeps its
payload with the index reassigned when tickers are truthy (timestamps are
ignored); a DataFrame gets its columns and index reassigned from truthy
labels; anything else raises TypeError. Reassigning labels of the wrong
length raises pandas's length-mismatch ValueError. An empty or missing
name becomes the default name. -/
def pandasFieldInit (data : PyData) (name : Option String)
    (tickers : Option (List String)) (timestamps : Option (List Int)) :
    Except PyErr PandasField :=
  let nm := match name with
    | some s => if s = "" then "temp" else s
    | none => "temp"
  match data with
  | .num v =>
      if truthy tickers && truthy timestamps then
        let tk := tickers.getD []
        let ts := timestamps.getD []
        .ok ⟨.frame tk ts (ts.map fun _ => tk.map fun _ => v), nm⟩
      else if truthy tickers then
        let tk := tickers.getD []
        .ok ⟨.series tk (tk.map fun _ => v), nm⟩
      else
        .ok ⟨.num v, nm⟩
  | .series idx vals =>
      if truthy tickers then
        let tk := tickers.getD []
        if tk.length = vals.length then .ok ⟨.series tk vals, nm⟩
        else .error (.valueError "Length mismatch on index assignment")
      else .ok ⟨.series idx vals, nm⟩
  | .frame cols idx rows =>
      let step1 : Except PyErr (List String) :=
        if truthy tickers then
          let tk := tickers.getD []
          if tk.length = cols.length then .ok tk
          else .error (.valueError "Length mismatch on columns assignment")
        else .ok cols
      match step1 with
      | .error e => .error e
      | .ok cols2 =>
        let step2 : Except PyErr (List Int) :=
          if truthy timestamps then
            let ts := timestamps.getD []
            if ts.length = rows.length then .ok ts
            else .error (.valueError "Length mismatch on index assignment")
          else .ok idx
        match step2 with
        | .error e => .error e
        | .ok idx2 => .ok ⟨.frame cols2 idx2 rows, nm⟩
  | .other _ =>
      .error (.typeError "argument data must be of type Num, Series, or DataFrame")

/-- The `isinstance(x, D0)` hook of `_D0Meta` applied to a stored payload:
a plain number (ints and floats). -/
def isinstanceD0 : PdData → Bool
  | .num _ => true
  | _ => false

/-- The `isinstance(x, D1)` hook applied to a stored payload: it exposes a
one-element `shape` (a Series does; a number exposes none; a DataFrame's
has two elements). -/
def isinstanceD1 : PdData → Bool
  | .series _ _ => true
  | _ => false

/-- The `isinstance(x, D2)` hook applied to a stored payload: a two-element
`shape` (a DataFrame). -/
def isinstanceD2 : PdData → Bool
  | .frame _ _ _ => true
  | _ => false

/-- The metaclass-run `_init_valitator` of `field/abstract.py`: classify
the stored payload by the D0, D1, D2 instance checks in that order,
require the tickers and timestamps attributes to be None for D0 and the
timestamps attribute to be None for D1, and reject any other payload; each
violation raises MethodImplementionError. Returns the dimension it
assigns. -/
def initValidator (f : PandasField) : Except PyErr Dim :=
  if isinstanceD0 f.data then
    match f.tickers with
    | some _ => .error (.methodImplError "attribute tickers must be None when dim = D0")
    | none =>
      match f.timestamps with
      | some _ => .error (.methodImplError "attribute timestamps must be None when dim = D0")
      | none => .ok .d0
  else if isinstanceD1 f.data then
    match f.timestamps with
    | some _ => .error (.methodImplError "attribute timestamps must be None when dim = D1")
    | none => .ok .d1
  else if isinstanceD2 f.data then .ok .d2
  else .error (.methodImplError "attribute data must be of type D0, D1 or D2")

/-- Construction through `_AbstractFieldMeta.__call__`: run
`PandasField.__init__`, then `_init_valitator`. The metaclass also
installs the wrapped `shift` and `setrow`; those are modelled by
`PandasField.shiftWrapped` and `PandasField.setrowWrapped`. -/
def fieldNew (data : PyData) (name : Option String)
    (tickers : Option (List String)) (timestamps : Option (List Int)) :
    Except PyErr PandasField :=
  match pandasFieldInit data name tickers timestamps with
  | .error e => .error e
  | .ok f =>
    match initValidator f with
    | .error e => .error e
    | .ok _ => .ok f

/-- Row or value shifting as in `Series.shift` and `DataFrame.shift`:
position i of the result holds position i - n of the input when that
position exists, else the placeholder `pad`. Length (and hence the label
index, which pandas keeps) is preserved. -/
def shiftWith {α : Type} (pad : α) (xs : List α) (n : Int) : List α :=
  (List.range xs.length).map fun (i : Nat) =>
    let j : Int := (i : Int) - n
    if j < 0 then pad else xs.getD j.toNat pad

/-- The raw `PandasField.shift` body: delegate to the payload's pandas
`shift` (a plain number has no such attribute, so a D0 payload raises
AttributeError), then rebuild through the class constructor with the same
tickers and timestamps. -/
def PandasField.shift (f : PandasField) (n : Int) : Except PyErr PandasField :=
  match f.data with
  | .num _ => .error (.attributeError "float object has no attribute shift")
  | .series idx vals =>
      fieldNew (.series idx (shiftWith .nan vals n)) none f.tickers f.timestamps
  | .frame cols idx rows =>
      fieldNew (.frame cols idx (shiftWith (cols.map fun _ => Val.nan) rows n))
        none f.tickers f.timestamps

/-- The `value` argument of `setrow`: a number, another field, or anything
else (rejected with TypeError). -/
inductive RowVal where
  | num (v : Val)
  | fld (g : PandasField)
  | other (descr : String)
deriving Repr, DecidableEq

/-- Positional resolution of an `iloc` scalar set-item: negative indices
count from the end; anything out of range raises IndexError. -/
def ilocIndex (n : Int) (len : Nat) : Option Nat :=
  let j : Int := if n < 0 then n + len else n
  if 0 ≤ j ∧ j < (len : Int) then some j.toNat else none

/-- The row written when a Series value is assigned into a DataFrame row:
pandas aligns the value's index against the frame's columns, filling
unmatched columns with NaN. The first matching label wins; the
repository's buffers carry distinct tickers, so this is exact there. -/
def alignRow (cols : List String) (idx : List String) (vals : List Val) :
    List Val :=
  cols.map fun c =>
    match (idx.zip vals).find? (fun p => p.1 = c) with
    | some p => p.2
    | none => .nan

/-- The raw `PandasField.setrow` body (`self.data.iloc[n] = ...`): a
number value broadcasts across the selected row; a field value assigns its
payload (a scalar payload broadcasts, a Series payload is aligned by
label into a DataFrame row); any other value raises TypeError, and a
scalar target payload has no `iloc`, raising AttributeError. Returns the
post-assignment field; in Python the assignment mutates `self.data` in
place, which callers of this definition account for. -/
def PandasField.setrow (f : PandasField) (n : Int) (value : RowVal) :
    Except PyErr PandasField :=
  match value with
  | .num v =>
    match f.data with
    | .num _ => .error (.attributeError "float object has no attribute iloc")
    | .series idx vals =>
      match ilocIndex n vals.length with
      | some i => .ok ⟨.series idx (vals.set i v), f.name⟩
      | none => .error .indexError
    | .frame cols idx rows =>
      match ilocIndex n rows.length with
      | some i => .ok ⟨.frame cols idx (rows.set i (cols.map fun _ => v)), f.name⟩
      | none => .error .indexError
  | .fld g =>
    match f.data with
    | .num _ => .error (.attributeError "float object has no attribute iloc")
    | .series _idx vals =>
      match g.data with
      | .num v =>
        match ilocIndex n vals.length with
        | some i => .ok ⟨.series _idx (vals.set i v), f.name⟩
        | none => .error .indexError
      | _ => .error (.otherError "setting a Series element with a sequence")
    | .frame cols idx rows =>
      match g.data with
      | .num v =>
        match ilocIndex n rows.length with
        | some i => .ok ⟨.frame cols idx (rows.set i (cols.map fun _ => v)), f.name⟩
        | none => .error .indexError
      | .series gidx gvals =>
        match ilocIndex n rows.length with
        | some i =>
          .ok ⟨.frame cols idx (rows.set i (alignRow cols gidx gvals)), f.name⟩
        | none => .error .indexError
      | .frame _ _ _ => .error (.otherError "incompatible indexer with DataFrame")
  | .other _ => .error (.typeError "argument value has an illegal type")

/-- The `validator(*result)` step of the `impl_validate` wrapper installed
by the metaclass. The wrapped `shift` returns a `PandasField` and the
wrapped `setrow` returns None; neither value supports Python iteration, so
the star-unpacking raises TypeError unconditionally before the validator
body could run. -/
def unpackForValidator (resultIsNone : Bool) : Except PyErr Unit :=
  if resultIsNone then
    .error (.typeError "argument after * must be an iterable, not NoneType")
  else
    .error (.typeError "argument after * must be an iterable, not PandasField")

/-- The public `shift` as installed on every instance by
`_AbstractFieldMeta.__call__`: run the raw `shift`, then attempt
`validator(*result)`, which raises TypeError because the returned field is
not iterable; the freshly built result is discarded. -/
def PandasField.shiftWrapped (f : PandasField) (n : Int) :
    Except PyErr PandasField :=
  match f.shift n with
  | .error e => .error e
  | .ok r =>
    match unpackForValidator false with
    | .error e => .error e
    | .ok _ => .ok r

/-- The public `setrow` as installed by the metaclass: run the raw
`setrow` (whose in-place mutation of the payload survives), then attempt
`validator(*None)`, which raises TypeError. The first component is the
field after the call (mutated whenever the raw assignment succeeded), the
second the call's outcome. -/
def PandasField.setrowWrapped (f : PandasField) (n : Int) (value : RowVal) :
    PandasField × Except PyErr Unit :=
  match f.setrow n value with
  | .ok f2 => (f2, unpackForValidator true)
  | .error e => (f, .error e)

/-- Duck-typed view of an arbitrary Python value as inspected by the
`__instancecheck__` hooks of `field/_types.py`: whether it is an instance
of `(int, float)`, and the length profile of its `shape` attribute when it
has one. Python allows values that are both numeric and shape-bearing
(for example an instance of an `int` subclass carrying a `shape`
attribute), so the two components vary independently. -/
structure PyVal where
  isNum : Bool
  shape : Option (List Nat)
deriving Repr, DecidableEq

/-- The Scalar pattern, `isinstance(x, D0)`: a plain number. -/
def instD0 (v : PyVal) : Bool := v.isNum

/-- The Vector pattern, `isinstance(x, D1)`: a `shape` attribute of length
one. -/
def instD1 (v : PyVal) : Bool :=
  match v.shape with
  | some s => s.length = 1
  | none => false

/-- The Matrix pattern, `isinstance(x, D2)`: a `shape` attribute of length
two. -/
def instD2 (v : PyVal) : Bool :=
  match v.shape with
  | some s => s.length = 2
  | none => false

/-- Outcome of the classification chain in `_init_valitator`: D0 is tested
first, then D1, then D2, and anything matching none of the three is
rejected with MethodImplementionError. -/
inductive Classified where
  | d0 | d1 | d2 | rejected
deriving Repr, DecidableEq

/-- The classification chain itself. -/
def classifyDim (v : PyVal) : Classified :=
  if instD0 v then .d0
  else if instD1 v then .d1
  else if instD2 v then .d2
  else .rejected

/-- How many of the three dimension patterns a value satisfies. -/
def patternCount (v : PyVal) : Nat :=
  (if instD0 v then 1 else 0) + (if instD1 v then 1 else 0)
    + (if instD2 v then 1 else 0)

/-- A value stored in the operator caches (`__op_cache__`): a field
buffer, an integer (row cursors and the integers the save and load slots
carry in the scenarios), or Python None. -/
inductive CVal where
  | fld (f : PandasField)
  | intv (z : Int)
  | noneVal
deriving Repr, DecidableEq

/-- Insertion-ordered dictionary update, as on a Python dict: an existing
key is updated in place, a new key is appended at the end. -/
def dictSet {κ α : Type} [DecidableEq κ] (l : List (κ × α)) (k : κ) (v : α) :
    List (κ × α) :=
  if l.any (fun p => p.1 = k) then
    l.map (fun p => if p.1 = k then (k, v) else p)
  else l ++ [(k, v)]

/-- Dictionary lookup by key. -/
def dictGet {κ α : Type} [DecidableEq κ] (l : List (κ × α)) (k : κ) :
    Option α :=
  (l.find? (fun p => p.1 = k)).map (fun p => p.2)

/-- State of an `AbstractTsOperator` instance: the `__op_count__` counter
dictionary and the `__op_cache__` buffer dictionary. -/
structure OpState where
  opCount : List (String × Int)
  opCache : List ((String × Int) × CVal)
deriving Repr, DecidableEq

/-- The state `__op_join__` builds: every listed operator name starts
counting at zero and the cache is empty. -/
def initState (ops : List String) : OpState :=
  ⟨ops.map fun o => (o, 0), []⟩

/-- The reset call `__op_reset__`: every invocation counter is set back to
zero; the cache dictionary is not touched. -/
def opReset (s : OpState) : OpState :=
  { s with opCount := s.opCount.map fun p => (p.1, 0) }

/-- The counter bump `__get_count`: create the counter at zero when the
name is unseen, add one, and hand back the new value. -/
def getCount (s : OpState) (name : String) : Int × OpState :=
  let old := (dictGet s.opCount name).getD 0
  (old + 1, { s with opCount := dictSet s.opCount name (old + 1) })

/-- The Python expression `list(range(n))`. -/
def intRange (n : Int) : List Int :=
  (List.range n.toNat).map fun (i : Nat) => (i : Int)

/-- The lazy buffer allocation `__accumulate_init`: when the
`(name + "_row", count)` slot is unseen, build the default-filled buffer
through the field constructor, called as
`fieldtype(default, timestamps=list(range(n)), tickers=x.tickers)` with
`default` being NaN when the caller passed none, and store the buffer and
a zero row cursor; otherwise leave the state unchanged. -/
def accumulateInit (s : OpState) (x : PandasField) (n : Int) (name : String)
    (count : Int) (default : Option PyData) : Except PyErr OpState :=
  if (dictGet s.opCache (name ++ "_row", count)).isSome then .ok s
  else
    let d : PyData := match default with
      | some pd => pd
      | none => .num .nan
    match fieldNew d none x.tickers (some (intRange n)) with
    | .error e => .error e
    | .ok fd =>
      .ok { s with
            opCache := dictSet (dictSet s.opCache (name, count) (.fld fd))
              (name ++ "_row", count) (.intv 0) }

/-- Reading a cached buffer. A missing key raises KeyError; a cached
non-field value would fail at the following attribute access (a branch the
repository's own flow never takes, modelled as an attribute error). -/
def cacheField (s : OpState) (k : String × Int) : Except PyErr PandasField :=
  match dictGet s.opCache k with
  | none => .error .keyError
  | some (.fld f) => .ok f
  | some _ => .error (.attributeError "cached value is not a field")

/-- The trailing-window step `__accumulate_back`: fetch the cached buffer,
`shift(-1)` it (building a fresh object), write `x` into its last row
(`f.shape[0] - 1`), then re-cache and return it. Both field-method calls
go through the installed wrappers; when one raises, the raise happens
before the re-cache assignment, so the cache keeps the old buffer. -/
def accumulateBack (s : OpState) (x : PandasField) (name : String)
    (count : Int) : Except PyErr PandasField × OpState :=
  match cacheField s (name, count) with
  | .error e => (.error e, s)
  | .ok f =>
    match f.shiftWrapped (-1) with
    | .error e => (.error e, s)
    | .ok f1 =>
      let r := f1.setrowWrapped ((f1.shape.getD 0 0 : Int) - 1) (.fld x)
      match r.2 with
      | .error e => (.error e, s)
      | .ok _ =>
        (.ok r.1, { s with opCache := dictSet s.opCache (name, count) (.fld r.1) })

/-- The sequential-fill step `__accumulate_forward`: write `x` at the
cached row cursor. The assignment mutates the cached buffer object in
place (the cache aliases it), so the mutation lands in the cache even when
the wrapped call then raises; on success the cursor advances and the
buffer is re-cached and returned. -/
def accumulateForward (s : OpState) (x : PandasField) (name : String)
    (count : Int) : Except PyErr PandasField × OpState :=
  match cacheField s (name, count) with
  | .error e => (.error e, s)
  | .ok f =>
    match dictGet s.opCache (name ++ "_row", count) with
    | none => (.error .keyError, s)
    | some (.intv nrow) =>
      let r := f.setrowWrapped nrow (.fld x)
      let s1 := { s with opCache := dictSet s.opCache (name, count) (.fld r.1) }
      match r.2 with
      | .error e => (.error e, s1)
      | .ok _ =>
        let s2 := { s1 with
          opCache := dictSet s1.opCache (name ++ "_row", count) (.intv (nrow + 1)) }
        (.ok r.1, { s2 with opCache := dictSet s2.opCache (name, count) (.fld r.1) })
    | some _ => (.error (.otherError "row cursor is not an integer"), s)

/-- The counter step `__accumulate_increase`: read the row cursor stored
under `(name + "_row", count)` — nothing on this dispatch path ever
creates that slot, so an absent slot raises KeyError — store cursor plus
one, and return the old cursor. -/
def accumulateIncrease (s : OpState) (name : String) (count : Int) :
    Except PyErr Int × OpState :=
  match dictGet s.opCache (name ++ "_row", count) with
  | some (.intv nrow) =>
    (.ok nrow,
      { s with opCache := dictSet s.opCache (name ++ "_row", count) (.intv (nrow + 1)) })
  | some _ => (.error (.otherError "row cursor is not an integer"), s)
  | none => (.error .keyError, s)

/-- Result of `accumulate`: a field for the buffer methods, an integer for
method increasing. -/
inductive AccRes where
  | fld (f : PandasField)
  | intv (z : Int)
deriving Repr, DecidableEq

/-- `AbstractTsOperator.accumulate`: reject an empty name with ValueError,
bump the per-name invocation counter, then dispatch on the method string;
back and forward first run the lazy buffer initialisation; an unrecognised
method raises ValueError — after the counter was already bumped. -/
def accumulate (s : OpState) (x : PandasField) (n : Int) (name : String)
    (default : Option PyData) (method : String) :
    Except PyErr AccRes × OpState :=
  if name = "" then
    (.error (.valueError "the operator name cannot be specified as empty"), s)
  else
    let c := getCount s name
    let count := c.1
    let s1 := c.2
    if method = "back" then
      match accumulateInit s1 x n name count default with
      | .error e => (.error e, s1)
      | .ok s2 =>
        match accumulateBack s2 x name count with
        | (.error e, s3) => (.error e, s3)
        | (.ok f, s3) => (.ok (.fld f), s3)
    else if method = "forward" then
      match accumulateInit s1 x n name count default with
      | .error e => (.error e, s1)
      | .ok s2 =>
        match accumulateForward s2 x name count with
        | (.error e, s3) => (.error e, s3)
        | (.ok f, s3) => (.ok (.fld f), s3)
    else if method = "increasing" then
      match accumulateIncrease s1 name count with
      | (.error e, s3) => (.error e, s3)
      | (.ok z, s3) => (.ok (.intv z), s3)
    else (.error (.valueError "invalid accumulate method"), s1)

/-- The generic state slot writer `_save`: bump the `f_name + "_save"`
counter (created at zero when unseen) and store the value under the new
count. -/
def saveOp (s : OpState) (x : CVal) (fname : String) : OpState :=
  let c := getCount s (fname ++ "_save")
  { c.2 with opCache := dictSet c.2.opCache (fname ++ "_save", c.1) x }

/-- The generic state slot reader `_load`: bump the `f_name + "_load"`
counter, auto-save the default when the matching save slot is missing,
then read the slot at the load count (KeyError when the two counters have
drifted apart). -/
def loadOp (s : OpState) (fname : String) (default : CVal) :
    Except PyErr CVal × OpState :=
  let c := getCount s (fname ++ "_load")
  let s2 := if (dictGet c.2.opCache (fname ++ "_save", c.1)).isSome then c.2
            else saveOp c.2 default fname
  match dictGet s2.opCache (fname ++ "_save", c.1) with
  | some v => (.ok v, s2)
  | none => (.error .keyError, s2)

/-! ## Concrete inputs used by the scenario claims -/

/-- A three-ticker input vector, as a claim's `vector_of_3_tickers`. -/
def xVec : PandasField :=
  ⟨.series ["A", "B", "C"] [.int 1, .int 2, .int 3], "temp"⟩

/-- The buffer `__accumulate_init` builds for `xVec` with n = 5: a 5 by 3
all-NaN frame with row labels 0..4 and the vector's tickers as columns. -/
def momBuffer : PandasField :=
  ⟨.frame ["A", "B", "C"] [0, 1, 2, 3, 4]
    (List.replicate 5 (List.replicate 3 Val.nan)), "temp"⟩

/-- A two-ticker vector field (dimension D1). -/
def vecF : PandasField := ⟨.series ["A", "B"] [.int 1, .int 2], "temp"⟩

/-- A scalar field (dimension D0). -/
def scalF : PandasField := ⟨.num (.int 3), "temp"⟩

/-- A 3 by 2 matrix field (dimension D2). -/
def matF : PandasField :=
  ⟨.frame ["A", "B"] [0, 1, 2]
    [[.int 1, .int 2], [.int 3, .int 4], [.int 5, .int 6]], "temp"⟩

/-- State after `save(42, "x")` on a fresh operator instance. -/
def sAfterSave : OpState := saveOp (initState []) (.intv 42) "x"

/-- State after the following `load("x")`. -/
def sAfterLoadX : OpState := (loadOp sAfterSave "x" .noneVal).2

/-- State after the further `load("y", default=7)` (no prior save under
"y"). -/
def sAfterLoadY : OpState := (loadOp sAfterLoadX "y" (.intv 7)).2

/-- Alternative history from the same point: `save(7, "y")` followed by
`load("y")`. -/
def sAltSaveLoadY : OpState :=
  (loadOp (saveOp sAfterLoadX (.intv 7) "y") "y" (.intv 7)).2

/-- Whether an outcome is a raised TypeError. -/
def exceptIsTypeError {α : Type} : Except PyErr α → Bool
  | .error (.typeError _) => true
  | _ => false

/-- Whether an outcome is a normal return. -/
def exceptOk {α : Type} : Except PyErr α → Bool
  | .ok _ => true
  | .error _ => false

/-! ## Dictionary helper lemmas -/

lemma dictGet_nil {κ α : Type} [DecidableEq κ] (k : κ) :
    dictGet ([] : List (κ × α)) k = none := rfl

lemma dictGet_cons {κ α : Type} [DecidableEq κ] (p : κ × α)
    (l : List (κ × α)) (k : κ) :
    dictGet (p :: l) k = if p.1 = k then some p.2 else dictGet l k := by
  by_cases h : p.1 = k <;> simp [dictGet, List.find?, h]

lemma dictGet_append_single_self {κ α : Type} [DecidableEq κ]
    (l : List (κ × α)) (k : κ) (v : α)
    (h : l.any (fun p => p.1 = k) = false) :
    dictGet (l ++ [(k, v)]) k = some v := by
  induction l with
  | nil => simp [dictGet_cons, dictGet_nil]
  | cons p t ih =>
    simp only [List.any_cons, Bool.or_eq_false_iff, decide_eq_false_iff_not] at h
    rw [List.cons_append, dictGet_cons, if_neg h.1]
    exact ih (by simpa using h.2)

lemma dictGet_map_update_self {κ α : Type} [DecidableEq κ]
    (l : List (κ × α)) (k : κ) (v : α)
    (h : l.any (fun p => p.1 = k) = true) :
    dictGet (l.map fun p => if p.1 = k then (k, v) else p) k = some v := by
  induction l with
  | nil => simp at h
  | cons p t ih =>
    simp only [List.map_cons]
    by_cases hp : p.1 = k
    · rw [if_pos hp, dictGet_cons]
      simp
    · rw [if_neg hp, dictGet_cons, if_neg hp]
      simp only [List.any_cons, decide_eq_true_eq, hp, decide_False,
        Bool.false_or] at h
      exact ih (by simpa using h)

lemma dictGet_dictSet_self {κ α : Type} [DecidableEq κ] (l : List (κ × α))
    (k : κ) (v : α) : dictGet (dictSet l k v) k = some v := by
  unfold dictSet
  by_cases h : l.any (fun p => p.1 = k)
  · rw [if_pos h]
    exact dictGet_map_update_self l k v h
  · rw [if_neg h]
    exact dictGet_append_single_self l k v (by simpa using Bool.of_not_eq_true h)

lemma dictGet_map_update_ne {κ α : Type} [DecidableEq κ] (l : List (κ × α))
    (k k2 : κ) (v : α) (h : k2 ≠ k) :
    dictGet (l.map fun p => if p.1 = k then (k, v) else p) k2
      = dictGet l k2 := by
  induction l with
  | nil => rfl
  | cons p t ih =>
    simp only [List.map_cons]
    by_cases hp : p.1 = k
    · rw [if_pos hp, dictGet_cons, dictGet_cons,
        if_neg (fun hh => h hh.symm), if_neg (fun hh => h (hp ▸ hh).symm)]
      exact ih
    · rw [if_neg hp, dictGet_cons, dictGet_cons]
      by_cases hpk : p.1 = k2
      · rw [if_pos hpk, if_pos hpk]
      · rw [if_neg hpk, if_neg hpk]
        exact ih

lemma dictGet_append_single_ne {κ α : Type} [DecidableEq κ]
    (l : List (κ × α)) (k k2 : κ) (v : α) (h : k2 ≠ k) :
    dictGet (l ++ [(k, v)]) k2 = dictGet l k2 := by
  induction l with
  | nil =>
    rw [List.nil_append, dictGet_cons, if_neg (fun hh => h hh.symm)]
  | cons p t ih =>
    rw [List.cons_append, dictGet_cons, dictGet_cons]
    by_cases hp : p.1 = k2
    · rw [if_pos hp, if_pos hp]
    · rw [if_neg hp, if_neg hp]
      exact ih

lemma dictGet_dictSet_ne {κ α : Type} [DecidableEq κ] (l : List (κ × α))
    (k k2 : κ) (v : α) (h : k2 ≠ k) :
    dictGet (dictSet l k v) k2 = dictGet l k2 := by
  unfold dictSet
  by_cases ha : l.any (fun p => p.1 = k)
  · rw [if_pos ha]
    exact dictGet_map_update_ne l k k2 v h
  · rw [if_neg ha]
    exact dictGet_append_single_ne l k k2 v h

lemma dictGet_map_zero (l : List (String × Int)) (k : String) :
    dictGet (l.map fun p => (p.1, 0)) k
      = (dictGet l k).map fun _ => (0 : Int) := by
  induction l with
  | nil => rfl
  | cons p t ih =>
    simp only [List.map_cons]
    rw [dictGet_cons, dictGet_cons]
    by_cases h : p.1 = k
    · rw [if_pos h, if_pos h]; rfl
    · rw [if_neg h, if_neg h]; exact ih

lemma shiftWith_length {α : Type} (pad : α) (xs : List α) (n : Int) :
    (shiftWith pad xs n).length = xs.length := by
  unfold shiftWith
  rw [List.length_map]
  exact List.length_range xs.length

lemma shift_series_ok (nm a : String) (idx : List String) (vals : List Val)
    (n : Int) (h : (a :: idx).length = vals.length) :
    PandasField.shift ⟨.series (a :: idx) vals, nm⟩ n
      = .ok ⟨.series (a :: idx) (shiftWith .nan vals n), "temp"⟩ := by
  have hlen : (a :: idx).length = (shiftWith Val.nan vals n).length := by
    rw [shiftWith_length]; exact h
  simp [PandasField.shift, fieldNew, pandasFieldInit, truthy,
    PandasField.tickers, PandasField.timestamps, hlen, initValidator,
    isinstanceD0, isinstanceD1]

lemma shift_frame_ok (nm : String) (cols : List String) (b : Int)
    (idx : List Int) (rows : List (List Val)) (n : Int)
    (h : (b :: idx).length = rows.length) :
    PandasField.shift ⟨.frame cols (b :: idx) rows, nm⟩ n
      = .ok ⟨.frame cols (b :: idx)
          (shiftWith (cols.map fun _ => Val.nan) rows n), "temp"⟩ := by
  have hlen : (b :: idx).length
      = (shiftWith (cols.map fun _ => Val.nan) rows n).length := by
    rw [shiftWith_length]; exact h
  cases cols with
  | nil =>
    simp [PandasField.shift, fieldNew, pandasFieldInit, truthy,
      PandasField.tickers, PandasField.timestamps, hlen, initValidator,
      isinstanceD0, isinstanceD1, isinstanceD2]
  | cons c cs =>
    simp [PandasField.shift, fieldNew, pandasFieldInit, truthy,
      PandasField.tickers, PandasField.timestamps, hlen, initValidator,
      isinstanceD0, isinstanceD1, isinstanceD2]

/-! ## The claims -/

/-- C1: the spec scenario says five successive
`accumulate(x, n=5, name="mom", method="back")` calls fill all five rows
of a 5 by 3 buffer. On the code, already the first such call raises
TypeError: `__accumulate_back` calls the wrapped `shift(-1)`, whose
validator step unpacks the returned field. The call still allocates the
5 by 3 all-NaN buffer under `("mom", 1)` and bumps the counter first. -/
theorem c1_first_back_call_raises :
    (accumulate (initState []) xVec 5 "mom" none "back").1
      = .error (.typeError "argument after * must be an iterable, not PandasField")
  ∧ dictGet (accumulate (initState []) xVec 5 "mom" none "back").2.opCache
      ("mom", 1) = some (.fld momBuffer)
  ∧ dictGet (accumulate (initState []) xVec 5 "mom" none "back").2.opCount
      "mom" = some 1 :=
  ⟨rfl, rfl, rfl⟩

/-- C2: the spec says `shift`/`setrow` on a non-Matrix field fail with a
call-precondition error naming the dimensions. On the code, the
dimension validators are empty and the wrapper is broken: on a Vector
field, `shift` raises TypeError from the wrapper unpacking (after the
raw shift succeeded), `setrow` first mutates the element in place and
then raises the same TypeError, and on a Scalar field `shift` raises
AttributeError because the payload has no pandas `shift`. -/
theorem c2_nonmatrix_calls_raise_wrong_kind :
    vecF.dim = .d1 ∧ scalF.dim = .d0
  ∧ PandasField.shiftWrapped vecF 1
      = .error (.typeError "argument after * must be an iterable, not PandasField")
  ∧ (PandasField.setrowWrapped vecF 0 (.num (.int 9))).2
      = .error (.typeError "argument after * must be an iterable, not NoneType")
  ∧ (PandasField.setrowWrapped vecF 0 (.num (.int 9))).1
      = ⟨.series ["A", "B"] [.int 9, .int 2], "temp"⟩
  ∧ PandasField.shiftWrapped scalF 1
      = .error (.attributeError "float object has no attribute shift") :=
  ⟨rfl, rfl, rfl, rfl, rfl, rfl⟩

/-- C3 counterexample: the claim says a Scalar-classified value with
non-None tickers fails with ConstructionError; instead the constructor
broadcasts the number over the tickers and succeeds with a Vector
field. -/
theorem c3_scalar_with_tickers_succeeds :
    fieldNew (.num (.int 3)) none (some ["a", "b"]) none
      = .ok ⟨.series ["a", "b"] [.int 3, .int 3], "temp"⟩
  ∧ PandasField.dim ⟨.series ["a", "b"] [.int 3, .int 3], "temp"⟩ = .d1 :=
  ⟨rfl, rfl⟩

/-- C3 (amended): no label combination on scalar or vector data raises an
error. Scalar data with nonempty tickers broadcasts into a Vector field;
with both labels nonempty it broadcasts into a Matrix field; scalar data
with timestamps but no tickers stays Scalar with the timestamps silently
dropped; and Series data with non-None timestamps keeps its payload with
the timestamps silently ignored. -/
theorem c3_labels_silently_accepted :
    (∀ (v : Val) (a : String) (tk : List String),
        fieldNew (.num v) none (some (a :: tk)) none
          = .ok ⟨.series (a :: tk) ((a :: tk).map fun _ => v), "temp"⟩)
  ∧ (∀ (v : Val) (a : String) (tk : List String) (b : Int) (ts : List Int),
        fieldNew (.num v) none (some (a :: tk)) (some (b :: ts))
          = .ok ⟨.frame (a :: tk) (b :: ts)
              ((b :: ts).map fun _ => (a :: tk).map fun _ => v), "temp"⟩)
  ∧ (∀ (v : Val) (ts : List Int),
        fieldNew (.num v) none none (some ts) = .ok ⟨.num v, "temp"⟩)
  ∧ (∀ (idx : List String) (vals : List Val) (ts : List Int),
        fieldNew (.series idx vals) none none (some ts)
          = .ok ⟨.series idx vals, "temp"⟩) :=
  ⟨fun _ _ _ => rfl, fun _ _ _ _ _ => rfl, fun _ _ => rfl, fun _ _ _ => rfl⟩

/-- C4: the spec scenario says `accumulate(..., name="cnt",
method="increasing")` returns 0, 1, 2 on three successive calls,
succeeding from the first. On the code, the increasing path never
initialises its row cursor, so the very first call raises KeyError when
reading `("cnt_row", 1)` — after the invocation counter was already
bumped to 1, and without touching the cache. -/
theorem c4_increasing_first_call_raises :
    (accumulate (initState []) xVec 5 "cnt" none "increasing").1
      = .error .keyError
  ∧ dictGet (accumulate (initState []) xVec 5 "cnt" none "increasing").2.opCount
      "cnt" = some 1
  ∧ (accumulate (initState []) xVec 5 "cnt" none "increasing").2.opCache
      = [] :=
  ⟨rfl, rfl, rfl⟩

/-- C6: the spec says `shift` on a Matrix field returns a new Field with
rows offset and NaN padding. The raw implementation does compute exactly
that field, but the metaclass-installed wrapper then unpacks it and
raises TypeError, so the public call never returns it. -/
theorem c6_matrix_shift_wrapper_discards_result :
    matF.dim = .d2
  ∧ PandasField.shiftWrapped matF 1
      = .error (.typeError "argument after * must be an iterable, not PandasField")
  ∧ PandasField.shift matF 1
      = .ok ⟨.frame ["A", "B"] [0, 1, 2]
          [[.nan, .nan], [.int 1, .int 2], [.int 3, .int 4]], "temp"⟩ :=
  ⟨rfl, rfl, rfl⟩

/-- C5: `__op_reset__` zeroes every invocation counter and leaves the
cache dictionary untouched (universally), and on the scenario trace a
repeat `accumulate(..., name="mom", method="back")` after a reset skips
allocation and revisits the very buffer stored under `("mom", 1)`: the
resulting state equals the pre-reset state exactly, with the original
all-NaN buffer still cached (the repeat call again ends in the wrapper's
TypeError before any row is written). -/
theorem c5_reset_keeps_cache_and_buffer_is_reused :
    (∀ s : OpState, (opReset s).opCache = s.opCache
      ∧ ∀ k : String, dictGet (opReset s).opCount k
          = (dictGet s.opCount k).map fun _ => (0 : Int))
  ∧ ((opReset (accumulate (initState []) xVec 5 "mom" none "back").2).opCount
        = [("mom", 0)]
      ∧ dictGet (accumulate (initState []) xVec 5 "mom" none "back").2.opCache
          ("mom", 1) = some (.fld momBuffer)
      ∧ (accumulate
            (opReset (accumulate (initState []) xVec 5 "mom" none "back").2)
            xVec 5 "mom" none "back").2
          = (accumulate (initState []) xVec 5 "mom" none "back").2
      ∧ (accumulate
            (opReset (accumulate (initState []) xVec 5 "mom" none "back").2)
            xVec 5 "mom" none "back").1
          = .error (.typeError "argument after * must be an iterable, not PandasField")) :=
  ⟨fun s => ⟨rfl, fun k => dictGet_map_zero s.opCount k⟩,
   rfl, rfl, rfl, rfl⟩

/-- C7: `save(42, "x")` then `load("x")` returns 42; `load("y",
default=7)` with no prior save under "y" returns 7, and the state it
leaves behind looks up identically (same counters, same cache) to the
state left by `save(7, "y")` followed by `load("y")` — the auto-saved
default behaves as if it had been saved at that position. -/
theorem c7_save_load_pairing :
    (loadOp sAfterSave "x" .noneVal).1 = .ok (.intv 42)
  ∧ (loadOp sAfterLoadX "y" (.intv 7)).1 = .ok (.intv 7)
  ∧ dictGet sAfterLoadY.opCache ("y_save", 1) = some (.intv 7)
  ∧ (loadOp (saveOp sAfterLoadX (.intv 7) "y") "y" (.intv 7)).1 = .ok (.intv 7)
  ∧ sAfterLoadY.opCache = sAltSaveLoadY.opCache
  ∧ (∀ k : String,
      dictGet sAfterLoadY.opCount k = dictGet sAltSaveLoadY.opCount k) := by
  refine ⟨rfl, rfl, rfl, rfl, rfl, ?_⟩
  intro k
  have hA : sAfterLoadY.opCount
      = [("x_save", 1), ("x_load", 1), ("y_load", 1), ("y_save", 1)] := rfl
  have hB : sAltSaveLoadY.opCount
      = [("x_save", 1), ("x_load", 1), ("y_save", 1), ("y_load", 1)] := rfl
  rw [hA, hB]
  by_cases h1 : ("x_save" : String) = k
  · simp [dictGet_cons, h1]
  by_cases h2 : ("x_load" : String) = k
  · simp [dictGet_cons, h1, h2]
  by_cases h3 : ("y_load" : String) = k
  · have h4 : ("y_save" : String) ≠ k := by
      intro hh
      exact absurd (hh.trans h3.symm) (by decide)
    simp [dictGet_cons, h1, h2, h3, h4]
  by_cases h4 : ("y_save" : String) = k
  · simp [dictGet_cons, h1, h2, h3, h4]
  · simp [dictGet_cons, h1, h2, h3, h4]

/-- C8 counterexample: the claim says no value can satisfy more than one
of the three dimension patterns; a value that is an instance of a numeric
type and carries a one-element shape attribute satisfies both the Scalar
and the Vector pattern. -/
theorem c8_overlapping_patterns_value :
    instD0 ⟨true, some [3]⟩ = true ∧ instD1 ⟨true, some [3]⟩ = true
  ∧ patternCount ⟨true, some [3]⟩ = 2 := by
  decide

/-- C8 (amended): the classification chain is total with a deterministic
outcome — a value is rejected exactly when it matches none of the three
patterns — and the Vector and Matrix patterns are mutually exclusive;
full mutual exclusivity holds for every non-numeric value, while a
numeric value may additionally match Vector or Matrix, in which case the
chain resolves it as Scalar (D0 is tested first). -/
theorem c8_classification_total_with_precedence :
    (∀ v : PyVal, ¬(instD1 v = true ∧ instD2 v = true))
  ∧ (∀ v : PyVal, classifyDim v = .rejected
      ↔ (instD0 v = false ∧ instD1 v = false ∧ instD2 v = false))
  ∧ (∀ v : PyVal, instD0 v = true → classifyDim v = .d0)
  ∧ (∀ v : PyVal, v.isNum = false → patternCount v ≤ 1) := by
  refine ⟨?_, ?_, ?_, ?_⟩
  · rintro ⟨b, sh⟩ ⟨h1, h2⟩
    cases sh with
    | none => simp [instD1] at h1
    | some s =>
      simp only [instD1, decide_eq_true_eq] at h1
      simp only [instD2, decide_eq_true_eq] at h2
      omega
  · intro v
    unfold classifyDim
    split_ifs with h0 h1 h2 <;> simp_all
  · intro v h
    simp [classifyDim, h]
  · rintro ⟨b, sh⟩ h
    simp only at h
    cases sh with
    | none => simp [patternCount, instD0, instD1, instD2, h]
    | some s =>
      simp only [patternCount, instD0, instD1, instD2, h]
      by_cases h1 : s.length = 1 <;> by_cases h2 : s.length = 2 <;>
        simp [h1, h2]

/-- C9 counterexample: the claim says every public `shift`/`setrow` call
raises TypeError regardless of dimension and arguments; on a Scalar field
`shift` raises AttributeError (the payload has no pandas `shift`), and an
out-of-range `setrow` on a Matrix field raises IndexError — neither is a
TypeError. -/
theorem c9_scalar_shift_is_attribute_error :
    PandasField.shiftWrapped scalF 1
      = .error (.attributeError "float object has no attribute shift")
  ∧ exceptIsTypeError (PandasField.shiftWrapped scalF 1) = false
  ∧ (PandasField.setrowWrapped matF 5 (.num (.int 9))).2 = .error .indexError
  ∧ exceptIsTypeError (PandasField.setrowWrapped matF 5 (.num (.int 9))).2
      = false :=
  ⟨rfl, rfl, rfl, rfl⟩

/-- C9 (amended): no public `shift` or `setrow` call ever returns
normally. On Series and DataFrame payloads of consistent shape, `shift`
always ends in the wrapper's TypeError (the raw shift succeeds, then
`validator(*result)` unpacks the non-iterable field), and an in-range
`setrow` with a number ends in TypeError from `validator(*None)`; on a
scalar payload the calls fail earlier with AttributeError. -/
theorem c9_wrapped_calls_never_return :
    (∀ (f : PandasField) (n : Int), exceptOk (f.shiftWrapped n) = false)
  ∧ (∀ (f : PandasField) (n : Int) (v : RowVal),
      exceptOk (f.setrowWrapped n v).2 = false)
  ∧ (∀ (nm a : String) (idx : List String) (vals : List Val) (n : Int),
      (a :: idx).length = vals.length →
      PandasField.shiftWrapped ⟨.series (a :: idx) vals, nm⟩ n
        = .error (.typeError "argument after * must be an iterable, not PandasField"))
  ∧ (∀ (nm : String) (cols : List String) (b : Int) (idx : List Int)
      (rows : List (List Val)) (n : Int),
      (b :: idx).length = rows.length →
      PandasField.shiftWrapped ⟨.frame cols (b :: idx) rows, nm⟩ n
        = .error (.typeError "argument after * must be an iterable, not PandasField"))
  ∧ (∀ (nm : String) (v : Val) (n : Int),
      PandasField.shiftWrapped ⟨.num v, nm⟩ n
        = .error (.attributeError "float object has no attribute shift"))
  ∧ (∀ (nm : String) (idx : List String) (vals : List Val) (n : Int)
      (w : Val) (i : Nat),
      ilocIndex n vals.length = some i →
      (PandasField.setrowWrapped ⟨.series idx vals, nm⟩ n (.num w)).2
        = .error (.typeError "argument after * must be an iterable, not NoneType")) := by
  refine ⟨?_, ?_, ?_, ?_, ?_, ?_⟩
  · intro f n
    unfold PandasField.shiftWrapped
    cases h : f.shift n <;> simp [unpackForValidator, exceptOk]
  · intro f n v
    unfold PandasField.setrowWrapped
    cases h : f.setrow n v <;> simp [unpackForValidator, exceptOk]
  · intro nm a idx vals n h
    unfold PandasField.shiftWrapped
    rw [shift_series_ok nm a idx vals n h]
    rfl
  · intro nm cols b idx rows n h
    unfold PandasField.shiftWrapped
    rw [shift_frame_ok nm cols b idx rows n h]
    rfl
  · intro nm v n
    rfl
  · intro nm idx vals n w i h
    have hs : PandasField.setrow ⟨.series idx vals, nm⟩ n (.num w)
        = .ok ⟨.series idx (vals.set i w), nm⟩ := by
      simp only [PandasField.setrow, h]
    unfold PandasField.setrowWrapped
    rw [hs]
    rfl

/-- C9 witness: the amended statement applied at concrete fields. -/
theorem c9_wrapped_calls_never_return_witness :
    exceptOk (PandasField.shiftWrapped matF 1) = false
  ∧ PandasField.shiftWrapped vecF 2
      = .error (.typeError "argument after * must be an iterable, not PandasField") :=
  ⟨c9_wrapped_calls_never_return.1 matF 1,
   c9_wrapped_calls_never_return.2.2.1 "temp" "A" ["B"]
     [Val.int 1, Val.int 2] 2 rfl⟩

/-- C10: calling `accumulate` with a nonempty name and a method outside
back, forward, increasing raises ValueError, but only after
`invocation_count[name]` was bumped by one (created at zero when unseen);
every other counter and the whole cache are untouched — the error path is
not atomic. -/
theorem c10_bad_method_raises_after_count_bump
    (s : OpState) (x : PandasField) (n : Int) (name : String)
    (default : Option PyData) (method : String)
    (hname : name ≠ "") (hb : method ≠ "back") (hf : method ≠ "forward")
    (hi : method ≠ "increasing") :
    (accumulate s x n name default method).1
      = .error (.valueError "invalid accumulate method")
  ∧ dictGet (accumulate s x n name default method).2.opCount name
      = some ((dictGet s.opCount name).getD 0 + 1)
  ∧ (∀ k : String, k ≠ name →
      dictGet (accumulate s x n name default method).2.opCount k
        = dictGet s.opCount k)
  ∧ (accumulate s x n name default method).2.opCache = s.opCache := by
  simp only [accumulate, getCount, if_neg hname, if_neg hb, if_neg hf,
    if_neg hi]
  refine ⟨trivial, ?_, ?_, trivial⟩
  · exact dictGet_dictSet_self s.opCount name _
  · exact fun k hk => dictGet_dictSet_ne s.opCount name k _ hk

/-- C10 witness: the theorem applied on a fresh operator with the unknown
method "bogus" under the unseen name "zz". -/
theorem c10_bad_method_witness :
    (accumulate (initState []) xVec 5 "zz" none "bogus").1
      = .error (.valueError "invalid accumulate method")
  ∧ dictGet (accumulate (initState []) xVec 5 "zz" none "bogus").2.opCount "zz"
      = some ((dictGet (initState []).opCount "zz").getD 0 + 1)
  ∧ (∀ k : String, k ≠ "zz" →
      dictGet (accumulate (initState []) xVec 5 "zz" none "bogus").2.opCount k
        = dictGet (initState []).opCount k)
  ∧ (accumulate (initState []) xVec 5 "zz" none "bogus").2.opCache
      = (initState []).opCache :=
  c10_bad_method_raises_after_count_bump (initState []) xVec 5 "zz" none
    "bogus" (by decide) (by decide) (by decide) (by decide)

end QuantWheel
